import Mathlib

/-!
Verification of the dmsformat library (src/src/dmsformat.js and src/dist/dmsformat.js):
conversion between decimal-degree coordinates and sexagesimal (DMS / DMM) text.

The JavaScript sources are shallowly embedded here:
* strings are `List Char` (all characters involved are single UTF-16 code units,
  so JavaScript string indices and lengths coincide with character counts);
* JavaScript numbers are modelled as exact rationals; `fromDMM` additionally
  tracks NaN and the infinities (reachable there via `parseFloat("Infinity")`)
  with the `JsNum` type; where the double rounding of the source's arithmetic
  is itself observable (the round-trip claim), a faithful IEEE-754 binary64
  model (`dblRound`, `decDegFromMatchD`, `fromDMSD`) is used as well;
* a thrown `Error` is an `Except Err` value, keyed by the message string;
* the regular expression `DMS_REGREX` is hand-compiled into a matcher with
  JavaScript semantics (leftmost match, greedy optional groups with
  backtracking); each place where the compilation discharges a backtracking
  alternative statically is annotated.

The Batteries rational operations are `@[irreducible]`; they are reopened for
kernel evaluation so that concrete runs of the embedded code can be settled
by `decide`.
-/

set_option maxRecDepth 4000
set_option allowUnsafeReducibility true
attribute [semireducible] Rat.add Rat.mul Rat.sub Rat.div Rat.inv Rat.ofScientific

/-- The ASCII apostrophe character (one of the minute separators and, doubled,
one of the second-unit glyphs of `DMS_REGREX`). -/
def quoteCh : Char := Char.ofNat 39

/-- The ASCII double-quote character (a second-unit glyph of `DMS_REGREX`). -/
def dquoteCh : Char := Char.ofNat 34

/-- The JavaScript whitespace class `\s` (also the class trimmed by
`String.prototype.trim`): tab, LF, VT, FF, CR, space, NBSP, BOM and the
Unicode space separators and line terminators. -/
def jsWhitespace (c : Char) : Bool :=
  c == ' ' || c == Char.ofNat 9 || c == Char.ofNat 10 || c == Char.ofNat 11 ||
  c == Char.ofNat 12 || c == Char.ofNat 13 || c == Char.ofNat 0xa0 ||
  c == Char.ofNat 0x1680 || (0x2000 ≤ c.toNat && c.toNat ≤ 0x200a) ||
  c == Char.ofNat 0x2028 || c == Char.ofNat 0x2029 || c == Char.ofNat 0x202f ||
  c == Char.ofNat 0x205f || c == Char.ofNat 0x3000 || c == Char.ofNat 0xfeff

/-- `String.prototype.trim`: remove leading and trailing whitespace. -/
def trimL (cs : List Char) : List Char :=
  ((cs.dropWhile jsWhitespace).reverse.dropWhile jsWhitespace).reverse

/-- The character class `[NSEW]` under the `/i` flag of `DMS_REGREX`. -/
def isHemi (c : Char) : Bool :=
  c == 'N' || c == 'S' || c == 'E' || c == 'W' ||
  c == 'n' || c == 's' || c == 'e' || c == 'w'

/-- The degree-separator class `[°º:d\s]` of `DMS_REGREX` (the `/i` flag makes
`d` also match `D`; the other members have no case variants). -/
def isDegSep (c : Char) : Bool :=
  c == '°' || c == 'º' || c == ':' || c == 'd' || c == 'D' || jsWhitespace c

/-- The minute-separator class of `DMS_REGREX`: apostrophe, `’`, `‘`, `′`, `:`. -/
def isMinSep (c : Char) : Bool :=
  c == quoteCh || c == '’' || c == '‘' || c == '′' || c == ':'

/-- Value of a nonempty list of decimal digits. -/
def digitsToNat (ds : List Char) : ℕ :=
  ds.foldl (fun a c => 10 * a + (c.toNat - 48)) 0

/-- The result of a successful `DMS_REGREX` match: `len` is the length of the
matched substring `m[0]`; `g1`/`g6` are the optional leading/trailing
hemisphere-letter captures `m[1]`/`m[6]` (the capture keeps the original
case); `g2` records whether the minus group `m[2]` matched; `g3`, `g4`, `g5`
are the degree, minute and second numeral captures `m[3]`–`m[5]`. -/
structure MatchRes where
  len : ℕ
  g1 : Option Char
  g2 : Bool
  g3 : List Char
  g4 : Option (List Char)
  g5 : Option (List Char)
  g6 : Option Char
  deriving Repr, DecidableEq

/-- The optional fractional part `(?:\.\d+)?`: greedily consume a dot followed
by at least one digit, else consume nothing. -/
def fracPart (cs : List Char) : List Char × List Char :=
  match cs with
  | '.' :: rest =>
    let ds := rest.takeWhile Char.isDigit
    if ds = [] then ([], cs) else ('.' :: ds, rest.drop ds.length)
  | _ => ([], cs)

/-- An optional single-character class `[...]?`: greedily consume one matching
character.  The rest of `DMS_REGREX` after each such class can always match
(everything later is optional), so the regex engine never backtracks into it. -/
def optClass (p : Char → Bool) (cs : List Char) : List Char :=
  match cs with
  | c :: rest => if p c then rest else cs
  | [] => []

/-- The optional second-unit group `(?:"|″|’’|'')?` of `DMS_REGREX`:
alternatives tried in order, greedily. -/
def secUnit (cs : List Char) : List Char :=
  match cs with
  | '″' :: r => r
  | '’' :: '’' :: r => r
  | c :: c2 :: r => if c == dquoteCh then c2 :: r else if c == quoteCh && c2 == quoteCh then r else cs
  | c :: r => if c == dquoteCh then r else cs
  | [] => cs

/-- The optional minutes-and-seconds group
`(?:(\d+(?:\.\d+)?)['’‘′:]\s?(?:(\d{1,2}(?:\.\d+)?)(?:"|″|’’|'')?)?)?` of
`DMS_REGREX`.  Returns the captures of groups 4 and 5 and the rest of the
input; if the group cannot match, it matches empty and captures nothing.
Backtracking note: if the required minute separator fails after the greedy
digits/fraction, no shorter alternative can succeed either (a shorter digit
run leaves a digit at the separator position and dropping the fraction leaves
a dot), so the whole group is skipped, exactly as the regex engine does. -/
def minutesOpt (cs : List Char) : Option (List Char) × Option (List Char) × List Char :=
  let ds := cs.takeWhile Char.isDigit
  if ds = [] then (none, none, cs) else
  let cs1 := cs.drop ds.length
  let (fr, cs2) := fracPart cs1
  match cs2 with
  | c :: rest =>
    if isMinSep c then
      let cs3 := optClass jsWhitespace rest
      let sds := (cs3.takeWhile Char.isDigit).take 2
      if sds = [] then (some (ds ++ fr), none, cs3)
      else
        let cs4 := cs3.drop sds.length
        let (sfr, cs5) := fracPart cs4
        let cs6 := secUnit cs5
        (some (ds ++ fr), some (sds ++ sfr), cs6)
    else (none, none, cs)
  | [] => (none, none, cs)

/-- The part of `DMS_REGREX` after the two optional prefix groups:
`(\d+(?:\.\d+)?)[°º:d\s]?\s?(?:minutes-seconds)?\s?([NSEW])?`.
`cs0` is the whole attempt's start (for computing `m[0].length`), `cs` the
position after the prefix groups.  Once the mandatory degree digits have
matched, every later construct is optional, so this part is deterministic:
the greedy choices can never cause a failure the engine would backtrack on. -/
def coreTail (g1 : Option Char) (g2 : Bool) (cs0 cs : List Char) : Option MatchRes :=
  let ds := cs.takeWhile Char.isDigit
  if ds = [] then none else
  let cs1 := cs.drop ds.length
  let (fr, cs2) := fracPart cs1
  let cs3 := optClass isDegSep cs2
  let cs4 := optClass jsWhitespace cs3
  let (g4, g5, cs5) := minutesOpt cs4
  let cs6 := optClass jsWhitespace cs5
  match cs6 with
  | c :: rest =>
    if isHemi c then
      some { len := cs0.length - rest.length, g1, g2, g3 := ds ++ fr, g4, g5, g6 := some c }
    else
      some { len := cs0.length - cs6.length, g1, g2, g3 := ds ++ fr, g4, g5, g6 := none }
  | [] => some { len := cs0.length, g1, g2, g3 := ds ++ fr, g4, g5, g6 := none }

/-- The optional minus group `(-)?` of `DMS_REGREX` followed by `coreTail`:
greedily try with the minus consumed, backtracking to the empty alternative
on failure (the empty alternative then fails too, since `-` is not a digit,
but the engine does attempt it). -/
def matchBC (g1 : Option Char) (cs0 cs : List Char) : Option MatchRes :=
  match cs with
  | '-' :: r => coreTail g1 true cs0 r <|> coreTail g1 false cs0 cs
  | _ => coreTail g1 false cs0 cs

/-- One anchored attempt of `DMS_REGREX` at the start of `cs`: the optional
leading hemisphere capture `([NSEW])?` is tried greedily, backtracking to the
empty alternative if the rest cannot match. -/
def matchAt (cs : List Char) : Option MatchRes :=
  match cs with
  | [] => none
  | c :: rest =>
    (if isHemi c then matchBC (some c) cs rest else none) <|> matchBC none cs cs

/-- `String.prototype.match` with the non-global `DMS_REGREX`: the attempt is
made at each successive start position and the first (leftmost) success is
returned. -/
def firstMatch : List Char → Option MatchRes
  | [] => none
  | c :: rest => matchAt (c :: rest) <|> firstMatch rest

/-- Numeric value of a string of the capture shape `\d+(\.\d+)?`; `none` for
any other string (modelling a NaN result of the `Number` conversion). -/
def numeralVal? (cs : List Char) : Option ℚ :=
  let intd := cs.takeWhile Char.isDigit
  if intd = [] then none else
  match cs.drop intd.length with
  | [] => some (digitsToNat intd)
  | '.' :: r =>
    let fd := r.takeWhile Char.isDigit
    if fd = [] then none
    else if r.drop fd.length = [] then
      some ((digitsToNat intd : ℚ) + (digitsToNat fd : ℚ) / (10 ^ fd.length : ℚ))
    else none
  | _ => none

/-- `Number(m[3])` in `decDegFromMatch`: group 3 always participates in a
match, and `Number("")` is `0`. -/
def numberOfCapture (cs : List Char) : Option ℚ :=
  if cs = [] then some 0 else numeralVal? cs

/-- `m[4] ? Number(m[4]) : 0` (and likewise for `m[5]`) in `decDegFromMatch`:
an absent or empty (falsy) capture gives `0`. -/
def captureOrZero (o : Option (List Char)) : Option ℚ :=
  match o with
  | none => some 0
  | some t => if t = [] then some 0 else numeralVal? t

/-- The `SIGN_INDEX` lookup table restricted to the letter keys.  JavaScript
property lookup is case-sensitive: only the exact keys `N`, `S`, `E`, `W`
are present, so a lowercase letter yields `undefined` (`none`). -/
def signIndex (c : Char) : Option ℤ :=
  if c = 'N' then some 1
  else if c = 'S' then some (-1)
  else if c = 'E' then some 1
  else if c = 'W' then some (-1)
  else none

/-- `inRange(value, a, b)` applied to a possibly-NaN value: every comparison
with NaN (`none`) is false. -/
def inRangeOpt (o : Option ℚ) (a b : ℚ) : Bool :=
  match o with
  | some q => a ≤ q && q ≤ b
  | none => false

instance {e a : Type} [DecidableEq e] [DecidableEq a] : DecidableEq (Except e a) := fun x y =>
  match x, y with
  | .ok v, .ok w => if h : v = w then .isTrue (by rw [h]) else .isFalse (by simp [h])
  | .error v, .error w => if h : v = w then .isTrue (by rw [h]) else .isFalse (by simp [h])
  | .ok _, .error _ => .isFalse (by simp)
  | .error _, .ok _ => .isFalse (by simp)

/-- The error values thrown by the library, keyed by message:
`'Could not parse string'`, `'Degrees out of range'`, `'Minutes out of
range'`, `'Seconds out of range'`, `'Lon/Lat values out of range'` and
`'Not a valid coordinate'`. -/
inductive Err where
  | parseError
  | degreesOutOfRange
  | minutesOutOfRange
  | secondsOutOfRange
  | rangeError
  | invalidCoordinate
  deriving Repr, DecidableEq

/-- `decDegFromMatch(m)` (src/src/dmsformat.js lines 44–63): resolve the sign
as `SIGN_INDEX[m[2]] || SIGN_INDEX[m[1]] || SIGN_INDEX[m[6]] || 1` (the `||`
falls through on `undefined`; `SIGN_INDEX['-']` is `-1`), read the degree,
minute and second magnitudes, validate each against its window, and return
`sign * (degrees + minutes / 60 + seconds / 3600)`.  The `getD 0` defaults in
the success branch are never exercised: `inRangeOpt` is false on `none`.
The arithmetic is taken in exact rationals; `decDegFromMatchD` below is the
variant with the source's IEEE-754 binary64 rounding made explicit. -/
def decDegFromMatch (m : MatchRes) : Except Err ℚ :=
  let sign : ℤ :=
    (((if m.g2 then some (-1 : ℤ) else none).orElse
        (fun _ => m.g1.bind signIndex)).orElse
        (fun _ => m.g6.bind signIndex)).getD 1
  let degrees := numberOfCapture m.g3
  let minutes := captureOrZero m.g4
  let seconds := captureOrZero m.g5
  if !(inRangeOpt degrees 0 180) then .error .degreesOutOfRange
  else if !(inRangeOpt minutes 0 60) then .error .minutesOutOfRange
  else if !(inRangeOpt seconds 0 60) then .error .secondsOutOfRange
  else .ok ((sign : ℚ) * (degrees.getD 0 + minutes.getD 0 / 60 + seconds.getD 0 / 3600))

/-- `fromDMS(value)` (src/src/dmsformat.js lines 111–131): trim, match the
grammar for the latitude component, slice off the matched prefix — starting
one character earlier when the match captured a leading hemisphere letter —
trim, match again for the longitude component, and extract both (the
longitude extraction is evaluated first, as in the source's array literal). -/
def fromDMSL (value : List Char) : Except Err (ℚ × ℚ) :=
  let v := trimL value
  match firstMatch v with
  | none => .error .parseError
  | some matchLat =>
    let lonString := trimL (v.drop (if matchLat.g1.isSome then matchLat.len - 1 else matchLat.len))
    match firstMatch lonString with
    | none => .error .parseError
    | some matchLon => do
      let lon ← decDegFromMatch matchLon
      let lat ← decDegFromMatch matchLat
      pure (lon, lat)

/-- `fromDMS` on a Lean string literal. -/
def fromDMS (s : String) : Except Err (ℚ × ℚ) := fromDMSL s.data

/-- A JavaScript number as produced by `parseFloat` and the arithmetic in
`fromDMM`: NaN, a signed infinity (`inf true` is negative), or a finite
value modelled as an exact rational. -/
inductive JsNum where
  | nan : JsNum
  | inf : Bool → JsNum
  | val : ℚ → JsNum
  deriving Repr, DecidableEq

/-- `isNumber(v)` (src/dist/dmsformat.js lines 245–247) on a number argument:
`typeof v == 'number' && !isNaN(v)`; infinities are numbers. -/
def JsNum.isNumber : JsNum → Bool
  | .nan => false
  | _ => true

/-- JavaScript addition on numbers: NaN propagates and opposite infinities
give NaN. -/
def JsNum.add : JsNum → JsNum → JsNum
  | .nan, _ => .nan
  | _, .nan => .nan
  | .inf a, .inf b => if a = b then .inf a else .nan
  | .inf a, .val _ => .inf a
  | .val _, .inf b => .inf b
  | .val a, .val b => .val (a + b)

/-- JavaScript division by a positive finite constant (the `/ 60` of
`fromDMM`). -/
def JsNum.divPos (x : JsNum) (d : ℚ) : JsNum :=
  match x with
  | .nan => .nan
  | .inf a => .inf a
  | .val q => .val (q / d)

/-- JavaScript multiplication by an orientation factor `1` or `-1`. -/
def JsNum.mulSign (s : ℤ) (x : JsNum) : JsNum :=
  if s = -1 then
    match x with
    | .nan => .nan
    | .inf a => .inf !a
    | .val q => .val (-q)
  else x

/-- `inRange(value, a, b)` on a JavaScript number: false for NaN (all
comparisons fail) and for either infinity (one of the two bounds fails). -/
def JsNum.inRange (x : JsNum) (a b : ℚ) : Bool :=
  match x with
  | .val q => a ≤ q && q ≤ b
  | _ => false

/-- `isNumber` applied to a possibly-`undefined` (`none`) value:
`typeof undefined` is not `'number'`. -/
def isNumberOpt (o : Option JsNum) : Bool :=
  match o with
  | some x => x.isNumber
  | none => false

/-- `inRange` applied to a possibly-`undefined` value (comparisons with
`undefined` are false). -/
def inRangeJsOpt (o : Option JsNum) (a b : ℚ) : Bool :=
  match o with
  | some x => x.inRange a b
  | none => false

/-- The optional exponent part of a `parseFloat` literal: `e`/`E`, an optional
sign and at least one digit; if the digits are missing nothing is consumed
(`parseFloat` takes the longest valid literal prefix). -/
def expPart (cs : List Char) : ℤ × List Char :=
  match cs with
  | c :: r =>
    if c == 'e' || c == 'E' then
      match r with
      | '-' :: r2 =>
        let ds := r2.takeWhile Char.isDigit
        if ds = [] then (0, cs) else (-(digitsToNat ds : ℤ), r2.drop ds.length)
      | '+' :: r2 =>
        let ds := r2.takeWhile Char.isDigit
        if ds = [] then (0, cs) else ((digitsToNat ds : ℤ), r2.drop ds.length)
      | _ =>
        let ds := r.takeWhile Char.isDigit
        if ds = [] then (0, cs) else ((digitsToNat ds : ℤ), r.drop ds.length)
    else (0, cs)
  | [] => (0, cs)

/-- Scale a rational by a signed power of ten. -/
def applyExp (q : ℚ) (e : ℤ) : ℚ :=
  if 0 ≤ e then q * 10 ^ e.toNat else q / 10 ^ (-e).toNat

/-- The built-in `parseFloat`: skip leading whitespace, read an optional sign,
then either the literal `Infinity` or a decimal mantissa (digits, an optional
dot with further digits; at least one digit in total) with an optional
exponent; NaN when no valid prefix exists.  Trailing garbage is ignored. -/
def jsParseFloat (cs : List Char) : JsNum :=
  let cs1 := cs.dropWhile jsWhitespace
  let (neg, cs2) :=
    match cs1 with
    | '-' :: r => (true, r)
    | '+' :: r => (false, r)
    | _ => (false, cs1)
  if "Infinity".data.isPrefixOf cs2 then .inf neg
  else
    let intd := cs2.takeWhile Char.isDigit
    let cs3 := cs2.drop intd.length
    let (fd, cs4) :=
      match cs3 with
      | '.' :: r => (r.takeWhile Char.isDigit, r.drop (r.takeWhile Char.isDigit).length)
      | _ => ([], cs3)
    if intd = [] ∧ fd = [] then .nan
    else
      let (e, _) := expPart cs4
      let mag : ℚ := (digitsToNat intd : ℚ) + (digitsToNat fd : ℚ) / (10 ^ fd.length : ℚ)
      .val (applyExp (if neg then -mag else mag) e)

/-- `String.prototype.split` with a single-character separator: JavaScript
split never returns an empty array (splitting the empty string gives
`[""]`). -/
def splitOnChar (sep : Char) : List Char → List (List Char)
  | [] => [[]]
  | c :: rest =>
    match splitOnChar sep rest with
    | [] => [[c]]
    | h :: t => if c = sep then [] :: h :: t else (c :: h) :: t

/-- `String.prototype.replace` with a plain (non-regex) pattern string:
remove the first occurrence of the character (the `replace('-', '')` of
`fromDMM`). -/
def removeFirst (c : Char) : List Char → List Char
  | [] => []
  | x :: rest => if x = c then rest else x :: removeFirst c rest

/-- The per-half computation of `fromDMM` (src/dist/dmsformat.js lines
329–333 for the latitude half and 336–340, textually identical, for the
longitude half): trim the half, take orientation `-1` exactly when the
trimmed half starts with a literal `-`, split on the space character, parse
the first token (with its first `-` removed when the orientation is `-1`) as
the degree magnitude and the second token, when present, as decimal minutes
(else `0`), and produce `orientation * (degrees + minutes / 60)` when both
parses are numbers, else `undefined` (`none`).  The empty-parts case is
unreachable: `splitOnChar` never returns `[]`. -/
def dmmHalfValue (half : List Char) : Option JsNum :=
  let t := trimL half
  let orientation : ℤ := if t.head? = some '-' then -1 else 1
  let parts := splitOnChar ' ' t
  let decimalGrad :=
    match parts with
    | p0 :: _ =>
      if orientation = -1 then jsParseFloat (removeFirst '-' p0) else jsParseFloat p0
    | [] => JsNum.nan
  let decimalMinutes :=
    match parts with
    | _ :: p1 :: _ => jsParseFloat p1
    | _ => JsNum.val 0
  if decimalGrad.isNumber && decimalMinutes.isNumber then
    some (JsNum.mulSign orientation (decimalGrad.add (decimalMinutes.divPos 60)))
  else none

/-- `fromDMM(value)` (src/dist/dmsformat.js lines 311–350): trim; `ParseError`
when no comma is present or splitting on commas does not give exactly two
parts; evaluate both halves; `ParseError` when either half's value is not a
number; `RangeError` when the longitude is outside `[-180, 180]` or the
latitude outside `[-90, 90]`; else `[valueLon, valueLat]`.  The `getD`
defaults in the success branch are never exercised (`inRangeJsOpt` is false
on `none`). -/
def fromDMML (value : List Char) : Except Err (JsNum × JsNum) :=
  let v := trimL value
  if !(v.contains ',') then .error .parseError
  else
    match splitOnChar ',' v with
    | [p0, p1] =>
      let valueLat := dmmHalfValue p0
      let valueLon := dmmHalfValue p1
      if !(isNumberOpt valueLon) || !(isNumberOpt valueLat) then .error .parseError
      else if !(inRangeJsOpt valueLon (-180) 180) || !(inRangeJsOpt valueLat (-90) 90) then
        .error .rangeError
      else .ok (valueLon.getD (.val 0), valueLat.getD (.val 0))
    | _ => .error .parseError

/-- `fromDMM` on a Lean string literal. -/
def fromDMM (s : String) : Except Err (JsNum × JsNum) := fromDMML s.data

/-- The character class of `DOES_CONTAIN_SPECIAL_CHARS = /[NSEW°'’‘′:"″]/g`
(no `/i` flag: the letters are uppercase only). -/
def specialChar (c : Char) : Bool :=
  c == 'N' || c == 'S' || c == 'E' || c == 'W' || c == '°' || c == quoteCh ||
  c == '’' || c == '‘' || c == '′' || c == ':' || c == dquoteCh || c == '″'

/-- `DOES_CONTAIN_SPECIAL_CHARS.test(value)`: because the regex carries the
`/g` flag, `test` is stateful — it searches from the regex's persistent
`lastIndex`, advances it past a hit, and resets it to `0` on a miss. -/
def testSpecialG (cs : List Char) (lastIndex : ℕ) : Bool × ℕ :=
  match (cs.drop lastIndex).findIdx? specialChar with
  | some j => (true, lastIndex + j + 1)
  | none => (false, 0)

/-- `isDMM(value)` (src/dist/dmsformat.js lines 392–399) with the shared
`lastIndex` of `DOES_CONTAIN_SPECIAL_CHARS` threaded explicitly: when
`fromDMM` throws, the `&&` chain is never reached and the state is untouched;
when it succeeds, the length/undefined checks always hold and the result is
the negation of the stateful `test`. -/
def isDMMSt (cs : List Char) (st : ℕ) : Bool × ℕ :=
  match fromDMML cs with
  | .error _ => (false, st)
  | .ok _ =>
    let (b, st2) := testSpecialG cs st
    (!b, st2)

/-- `isDMS(value)` (src/dist/dmsformat.js lines 410–417) with the same
threaded state: when `fromDMS` succeeds the result is the negation of
`isDMM` on the same string (which may consult and advance the shared
`lastIndex`). -/
def isDMSSt (cs : List Char) (st : ℕ) : Bool × ℕ :=
  match fromDMSL cs with
  | .error _ => (false, st)
  | .ok _ =>
    let (b, st2) := isDMMSt cs st
    (!b, st2)

/-- `isDMM` under per-call-pure semantics: each call taken as a function of
its input alone, i.e. run from the initial regex state `0`. -/
def isDMMPure (cs : List Char) : Bool := (isDMMSt cs 0).1

/-- `isDMS` under per-call-pure semantics. -/
def isDMSPure (cs : List Char) : Bool := (isDMSSt cs 0).1

/-- `String.prototype.replace` with a global literal-text pattern:
left-to-right, non-overlapping replacement of every occurrence.  The `ℕ`
argument skips the remainder of an already-replaced occurrence (kept
structural so that concrete runs reduce). -/
def replaceAllAux (pat rep : List Char) : ℕ → List Char → List Char
  | _, [] => []
  | k + 1, _ :: rest => replaceAllAux pat rep k rest
  | 0, c :: rest =>
    if pat ≠ [] ∧ pat.isPrefixOf (c :: rest) then
      rep ++ replaceAllAux pat rep (pat.length - 1) rest
    else
      c :: replaceAllAux pat rep 0 rest

/-- `replaceAllAux` on Lean strings (skip counter initially `0`). -/
def replaceS (s pat rep : String) : String := ⟨replaceAllAux pat.data rep.data 0 s.data⟩

/-- Left-pad a numeral string with zeros to width `w`. -/
def padZeros (s : String) (w : ℕ) : String :=
  ⟨List.replicate (w - s.length) '0' ++ s.data⟩

/-- `Number.prototype.toFixed(d)` for a nonnegative value: round
half-up to `d` decimals and render with exactly `d` fraction digits. -/
def jsToFixedNat (q : ℚ) (d : ℕ) : String :=
  let n : ℕ := (Rat.floor (q * 10 ^ d + 1 / 2)).toNat
  if d = 0 then toString n
  else toString (n / 10 ^ d) ++ "." ++ padZeros (toString (n % 10 ^ d)) d

/-- `Number.prototype.toFixed(d)`: the sign is rendered first and the
magnitude rounded half-up (ECMA: of two equally near candidates the larger
is chosen). -/
def jsToFixed (q : ℚ) (d : ℕ) : String :=
  if q < 0 then "-" ++ jsToFixedNat (-q) d else jsToFixedNat q d

/-- The per-axis value record built by `computeFor` inside
`computeCoordinateConfig` (src/src/dmsformat.js lines 70–90).  In the source
`initValue` is the one-element array `[coordinate[i]]`, which every later use
coerces back to the number it wraps, so it is modelled as that number. -/
structure AxisValues where
  initValue : ℚ
  degrees : ℚ
  degreesInt : ℤ
  degreesFrac : ℚ
  secondsTotal : ℚ
  minutes : ℚ
  minutesInt : ℤ
  seconds : ℚ
  deriving Repr, DecidableEq

/-- `computeFor(initValue)`: absolute value, integer and fractional degrees,
total seconds, decimal and integer minutes, and the seconds remainder. -/
def computeFor (initValue : ℚ) : AxisValues :=
  let degrees := |initValue|
  let degreesInt := Rat.floor degrees
  let degreesFrac := degrees - degreesInt
  let secondsTotal := 3600 * degreesFrac
  let minutes := secondsTotal / 60
  let minutesInt := Rat.floor minutes
  let seconds := secondsTotal - minutesInt * 60
  { initValue, degrees, degreesInt, degreesFrac, secondsTotal, minutes, minutesInt, seconds }

/-- The record returned by `computeCoordinateConfig(coordinate)`. -/
structure CoordinateConfig where
  north : Bool
  east : Bool
  latValues : AxisValues
  lonValues : AxisValues
  deriving Repr, DecidableEq

/-- `computeCoordinateConfig([lon, lat])`: `north = coordinate[1] > 0`,
`east = coordinate[0] > 0` (strict comparisons), plus the two per-axis
decompositions. -/
def computeCoordinateConfig (lon lat : ℚ) : CoordinateConfig :=
  { north := 0 < lat, east := 0 < lon, latValues := computeFor lat, lonValues := computeFor lon }

/-- The merged formatting options of `toDMS`. -/
structure FormatOptions where
  decimalPlaces : ℕ
  latLonSeparator : String
  deriving Repr, DecidableEq

/-- A caller-supplied options object with optional fields. -/
structure OptFormatOptions where
  decimalPlaces : Option ℕ := none
  latLonSeparator : Option String := none

/-- The `Object.assign({decimalPlaces: 5, latLonSeparator: ' '}, ...)` merge
of `toDMS`: caller-supplied fields override the defaults individually. -/
def mergeOptions (o : Option OptFormatOptions) : FormatOptions :=
  match o with
  | none => { decimalPlaces := 5, latLonSeparator := " " }
  | some oo => { decimalPlaces := oo.decimalPlaces.getD 5,
                 latLonSeparator := oo.latLonSeparator.getD " " }

/-- Render an integer the way JavaScript stringifies an integral number. -/
def intStr (i : ℤ) : String := toString i

/-- `formatFor(format, options, values, X)` inside `toDMS` (src/src/
dmsformat.js lines 157–173): the twelve global replacements applied in source
order `DD, dd, D, d, MM, mm, M, m, ss, s, -, X`. -/
def formatFor (format : String) (options : FormatOptions) (values : AxisValues) (X : String) :
    String :=
  let f := replaceS format "DD" (intStr values.degreesInt ++ "°")
  let f := replaceS f "dd" (jsToFixed values.degrees options.decimalPlaces ++ "°")
  let f := replaceS f "D" (intStr values.degreesInt)
  let f := replaceS f "d" (jsToFixed values.degrees options.decimalPlaces)
  let f := replaceS f "MM" (intStr values.minutesInt ++ "′")
  let f := replaceS f "mm" (jsToFixed values.minutes options.decimalPlaces ++ "′")
  let f := replaceS f "M" (intStr values.minutesInt)
  let f := replaceS f "m" (jsToFixed values.minutes options.decimalPlaces)
  let f := replaceS f "ss" (jsToFixed values.seconds options.decimalPlaces ++ "″")
  let f := replaceS f "s" (jsToFixed values.seconds options.decimalPlaces)
  let f := replaceS f "-" (if values.initValue < 0 then "-" else "")
  let f := replaceS f "X" X
  f

/-- `toDMS(coordinate, optFormatStr, optOptions)` (src/src/dmsformat.js lines
140–176): reject coordinates that are not 2-element pairs, resolve the format
string (default `'DD MM ss X'`) and options, build the coordinate
configuration, format each axis with its hemisphere letter, and join with the
separator. -/
def toDMS (coordinate : List ℚ) (optFormatStr : Option String)
    (optOptions : Option OptFormatOptions) : Except Err String :=
  if coordinate.length ≠ 2 then .error .invalidCoordinate
  else
    match coordinate with
    | [lon, lat] =>
      let format := optFormatStr.getD "DD MM ss X"
      let options := mergeOptions optOptions
      let coordConf := computeCoordinateConfig lon lat
      let latS := formatFor format options coordConf.latValues (if coordConf.north then "N" else "S")
      let lonS := formatFor format options coordConf.lonValues (if coordConf.east then "E" else "W")
      .ok (latS ++ options.latLonSeparator ++ lonS)
    | _ => .error .invalidCoordinate

/-- The sign priority as worded by claim C3: an explicit leading minus wins,
then the leading hemisphere letter's `SIGN_INDEX` value, then the trailing
one, else positive. -/
def prioritySign (m : MatchRes) : ℤ :=
  if m.g2 then -1
  else
    match m.g1.bind signIndex with
    | some s => s
    | none =>
      match m.g6.bind signIndex with
      | some s => s
      | none => 1

/-- Split into maximal whitespace-free runs (accumulator kept structural). -/
def wsTokensAux (cur : List Char) : List Char → List (List Char)
  | [] => if cur = [] then [] else [cur.reverse]
  | c :: rest =>
    if jsWhitespace c then
      if cur = [] then wsTokensAux [] rest else cur.reverse :: wsTokensAux [] rest
    else wsTokensAux (c :: cur) rest

/-- Split a string into its whitespace-separated tokens. -/
def wsTokens (cs : List Char) : List (List Char) := wsTokensAux [] cs

/-- The half evaluation exactly as the specification words it for claim C5
(*split on whitespace*), for comparison with `dmmHalfValue`, which splits on
the space character only; all other steps mirror the source. -/
def dmmSpecHalfValue (half : List Char) : Option JsNum :=
  let t := trimL half
  let sign : ℤ := if t.head? = some '-' then -1 else 1
  let toks := wsTokens t
  match toks with
  | t0 :: rest =>
    let grad := if sign = -1 then jsParseFloat (removeFirst '-' t0) else jsParseFloat t0
    let mnt :=
      match rest with
      | t1 :: _ => jsParseFloat t1
      | [] => JsNum.val 0
    if grad.isNumber && mnt.isNumber then
      some (JsNum.mulSign sign (grad.add (mnt.divPos 60)))
    else none
  | [] => none

/-- A match whose degree capture is `200` (all other groups absent). -/
def exMatchDeg200 : MatchRes :=
  { len := 3, g1 := none, g2 := true, g3 := "200".data, g4 := none, g5 := none, g6 := none }

/-- A match with a leading minus, a leading `N` and degree capture `10`. -/
def exMatchMinusN10 : MatchRes :=
  { len := 4, g1 := some 'N', g2 := true, g3 := "10".data, g4 := none, g5 := none, g6 := none }

/-- A plain match with degree capture `59` (all optional groups absent). -/
def exMatchPlain59 : MatchRes :=
  { len := 2, g1 := none, g2 := false, g3 := "59".data, g4 := none, g5 := none, g6 := none }

/-- Floor of the base-2 logarithm (`0` at `0`), fuel-structured so that
concrete runs reduce in the kernel. -/
def log2fuel : ℕ → ℕ → ℕ
  | 0, _ => 0
  | fuel + 1, n => if 2 ≤ n then log2fuel fuel (n / 2) + 1 else 0

/-- Floor of the base-2 logarithm of a natural number. -/
def floorLog2 (n : ℕ) : ℕ := log2fuel n n

/-- The rational value `2 ^ k` for a signed exponent. -/
def qpow2 (k : ℤ) : ℚ :=
  if 0 ≤ k then ((2 ^ k.toNat : ℕ) : ℚ) else 1 / ((2 ^ (-k).toNat : ℕ) : ℚ)

/-- Round a rational to the nearest integer, ties to even. -/
def rne (x : ℚ) : ℤ :=
  let f := Rat.floor x
  let r := x - f
  if r < 1 / 2 then f
  else if 1 / 2 < r then f + 1
  else if f % 2 = 0 then f else f + 1

/-- Round a positive rational to the nearest IEEE-754 binary64 value:
with `2 ^ k ≤ q < 2 ^ (k + 1)`, round `q` to a 53-bit significand at
exponent `k` (ties to even) and return the exact rational value of that
double. -/
def dblRoundPos (q : ℚ) : ℚ :=
  let a := floorLog2 q.num.toNat
  let b := floorLog2 q.den
  let k0 : ℤ := (a : ℤ) - (b : ℤ)
  let k : ℤ := if qpow2 k0 ≤ q then k0 else k0 - 1
  ((rne (q * qpow2 (52 - k)) : ℚ)) * qpow2 (k - 52)

/-- Round a rational to the nearest IEEE-754 binary64 value (round to
nearest, ties to even), as its exact rational value.  Defined for the normal
range; every value arising in this development lies well inside it, so
overflow and subnormals need no treatment. -/
def dblRound (q : ℚ) : ℚ :=
  if q = 0 then 0
  else if q < 0 then -dblRoundPos (-q)
  else dblRoundPos q

/-- IEEE-754 binary64 addition: the exact sum rounded once. -/
def fladd (a b : ℚ) : ℚ := dblRound (a + b)

/-- IEEE-754 binary64 division: the exact quotient rounded once. -/
def fldiv (a b : ℚ) : ℚ := dblRound (a / b)

/-- `decDegFromMatch` with the source's IEEE-754 binary64 arithmetic made
explicit: `Number` rounds the decimal numeral to the nearest double, each
division and addition of `degrees + minutes / 60 + seconds / 3600` rounds
once (left-associated, as in the source expression), and the final
multiplication by the sign `±1` is exact. -/
def decDegFromMatchD (m : MatchRes) : Except Err ℚ :=
  let sign : ℤ :=
    (((if m.g2 then some (-1 : ℤ) else none).orElse
        (fun _ => m.g1.bind signIndex)).orElse
        (fun _ => m.g6.bind signIndex)).getD 1
  let degrees := (numberOfCapture m.g3).map dblRound
  let minutes := (captureOrZero m.g4).map dblRound
  let seconds := (captureOrZero m.g5).map dblRound
  if !(inRangeOpt degrees 0 180) then .error .degreesOutOfRange
  else if !(inRangeOpt minutes 0 60) then .error .minutesOutOfRange
  else if !(inRangeOpt seconds 0 60) then .error .secondsOutOfRange
  else
    let v := fladd (fladd (degrees.getD 0) (fldiv (minutes.getD 0) 60))
      (fldiv (seconds.getD 0) 3600)
    .ok (if sign = -1 then -v else v)

/-- `fromDMS` with the extraction evaluated in IEEE-754 binary64
(`decDegFromMatchD`); the matching itself involves no arithmetic. -/
def fromDMSDL (value : List Char) : Except Err (ℚ × ℚ) :=
  let v := trimL value
  match firstMatch v with
  | none => .error .parseError
  | some matchLat =>
    let lonString := trimL (v.drop (if matchLat.g1.isSome then matchLat.len - 1 else matchLat.len))
    match firstMatch lonString with
    | none => .error .parseError
    | some matchLon => do
      let lon ← decDegFromMatchD matchLon
      let lat ← decDegFromMatchD matchLat
      pure (lon, lat)

/-- `fromDMSDL` on a Lean string literal. -/
def fromDMSD (s : String) : Except Err (ℚ × ℚ) := fromDMSDL s.data

/-- C6 counterexample: the round trip is not exact in IEEE-754 doubles.
`fromDMS` of the exact string `"35° 16′ 55.20000″ S 149° 7′ 43.26240″ E"`,
with the extraction arithmetic evaluated in binary64, returns a latitude
equal to the double `-35.282` but a longitude of `149.12868400000002` — a
different double from `149.128684` — so the returned pair is not equal, as
IEEE-754 doubles, to the original `[149.128684, -35.282]` (the repository's
own round-trip test expects `149.12868400000002`). -/
theorem fromDMS_double_roundtrip_counterexample :
    fromDMSD "35° 16′ 55.20000″ S 149° 7′ 43.26240″ E" =
      .ok (dblRound (149.12868400000002 : ℚ), dblRound (-35.282 : ℚ)) ∧
    dblRound (149.12868400000002 : ℚ) ≠ dblRound (149.128684 : ℚ) ∧
    fromDMSD "35° 16′ 55.20000″ S 149° 7′ 43.26240″ E" ≠
      .ok (dblRound (149.128684 : ℚ), dblRound (-35.282 : ℚ)) := by
  refine ⟨by decide, by decide, by decide⟩

/-- C6 amended: `toDMS` at `[149.128684, -35.282]` with the default format
and options produces exactly `"35° 16′ 55.20000″ S 149° 7′ 43.26240″ E"`,
and `fromDMS` of that exact string returns a pair whose exact
(real-arithmetic) value is `[149.128684, -35.282]`; under IEEE-754 double
evaluation the latitude equals the double `-35.282`, while the longitude is
`149.12868400000002`, the neighbouring double of `149.128684` — so the round
trip is exact in real arithmetic but off by one unit in the last place in
the longitude double. -/
theorem toDMS_fromDMS_roundtrip_amended :
    toDMS [149.128684, -35.282] none none =
      .ok "35° 16′ 55.20000″ S 149° 7′ 43.26240″ E" ∧
    fromDMS "35° 16′ 55.20000″ S 149° 7′ 43.26240″ E" = .ok (149.128684, -35.282) ∧
    fromDMSD "35° 16′ 55.20000″ S 149° 7′ 43.26240″ E" =
      .ok (dblRound (149.12868400000002 : ℚ), dblRound (-35.282 : ℚ)) := by
  refine ⟨by decide, by decide, by decide⟩

/-- C7: the classifiers are not mutually exclusive in the running program.
On `"41.5, 2°10.4418"` — a string containing a DMS special character — a call
to `isDMS` returns `true`, and the immediately following call to `isDMM` on
the same string also returns `true`, because the first call advanced the
persistent `lastIndex` of the `/g`-flagged `DOES_CONTAIN_SPECIAL_CHARS` past
the only `°`. -/
theorem isDMS_isDMM_both_true_sequence :
    (isDMSSt ("41.5, 2°10.4418".data) 0).1 = true ∧
    (isDMMSt ("41.5, 2°10.4418".data) (isDMSSt ("41.5, 2°10.4418".data) 0).2).1 = true ∧
    ("41.5, 2°10.4418".data).any specialChar = true := by
  refine ⟨by decide, by decide, by decide⟩

/-- C8: `isDMM` is not deterministic across calls.  Three successive calls on
the same string `"41°24.2028, 2°10.4418"` (each starting from the regex state
the previous call left behind) return `false`, `false`, `true`: the
`/g`-flagged `DOES_CONTAIN_SPECIAL_CHARS.test` advances its persistent
`lastIndex` past one `°` per call and misses on the third. -/
theorem isDMM_repeated_calls_differ :
    isDMMSt ("41°24.2028, 2°10.4418".data) 0 = (false, 3) ∧
    isDMMSt ("41°24.2028, 2°10.4418".data)
      (isDMMSt ("41°24.2028, 2°10.4418".data) 0).2 = (false, 14) ∧
    isDMMSt ("41°24.2028, 2°10.4418".data)
      (isDMMSt ("41°24.2028, 2°10.4418".data)
        (isDMMSt ("41°24.2028, 2°10.4418".data) 0).2).2 = (true, 0) := by
  refine ⟨by decide, by decide, by decide⟩

/-- C9 counterexample: lowercasing hemisphere letters changes `fromDMS`.
`"59N 2W"` parses to `[-2, 59]` but its lowercased form `"59n 2w"` parses to
`[2, 59]`: the grammar matches `n`/`w` case-insensitively, but the
case-sensitive `SIGN_INDEX` lookup finds no entry for them, so the sign
falls back to the positive default. -/
theorem fromDMS_lowercase_counterexample :
    fromDMS "59N 2W" = .ok (-2, 59) ∧
    fromDMS "59n 2w" = .ok (2, 59) ∧
    fromDMS "59n 2w" ≠ fromDMS "59N 2W" := by
  refine ⟨by decide, by decide, by decide⟩

/-- C4 counterexample: `fromDMM "Infinity -Infinity, 0"` fails with
`ParseError` although the trimmed input contains a comma, splits into exactly
two parts, and every degree/minute token of both halves parses as a number
(`parseFloat` yields `Infinity`, `-Infinity` and `0`, all numbers): the half
value `Infinity + (-Infinity)/60` is NaN, a case the claim's token-level
condition does not cover. -/
theorem fromDMM_token_condition_counterexample :
    fromDMML ("Infinity -Infinity, 0".data) = .error .parseError ∧
    (trimL ("Infinity -Infinity, 0".data)).contains ',' = true ∧
    splitOnChar ',' (trimL ("Infinity -Infinity, 0".data)) =
      ["Infinity -Infinity".data, " 0".data] ∧
    splitOnChar ' ' (trimL ("Infinity -Infinity".data)) =
      ["Infinity".data, "-Infinity".data] ∧
    (jsParseFloat ("Infinity".data)).isNumber = true ∧
    (jsParseFloat ("-Infinity".data)).isNumber = true ∧
    (jsParseFloat (trimL (" 0".data))).isNumber = true := by
  refine ⟨by decide, by decide, by decide, by decide, by decide, by decide, by decide⟩

/-- C5 counterexample: on `"41\t24.2028, 2"` (a tab inside the latitude half)
`fromDMM` succeeds with latitude `41`, but the claim's evaluation rule —
split the half *on whitespace*, second token giving decimal minutes — yields
`41 + 24.2028 / 60`: the code splits on the space character only, so the tab
does not separate tokens and the minutes are silently dropped. -/
theorem fromDMM_whitespace_split_counterexample :
    fromDMML ("41\t24.2028, 2".data) = .ok (.val 2, .val 41) ∧
    dmmSpecHalfValue ("41\t24.2028".data) = some (.val (41 + 24.2028 / 60)) ∧
    JsNum.val (41 : ℚ) ≠ JsNum.val (41 + 24.2028 / 60) := by
  refine ⟨by decide, by decide, by decide⟩

/-- C9 amended: the grammar matches hemisphere letters case-insensitively,
but the `SIGN_INDEX` lookup in the extractor is case-sensitive, so a
lowercase hemisphere letter (leading or trailing) contributes no sign — the
extraction behaves exactly as if that capture were absent (in particular a
lowercase `s` or `w` leaves the sign to fall through to the next source, and
replacing an uppercase letter by its lowercase form can change the result). -/
theorem decDegFromMatch_lowercase_ignored (m : MatchRes) (c : Char)
    (h : c = 'n' ∨ c = 's' ∨ c = 'e' ∨ c = 'w') :
    decDegFromMatch { m with g1 := some c } = decDegFromMatch { m with g1 := none } ∧
    decDegFromMatch { m with g6 := some c } = decDegFromMatch { m with g6 := none } := by
  rcases h with rfl | rfl | rfl | rfl <;>
    exact ⟨rfl, rfl⟩

theorem decDegFromMatch_lowercase_ignored_witness :
    decDegFromMatch { exMatchPlain59 with g1 := some 's' } =
      decDegFromMatch { exMatchPlain59 with g1 := none } ∧
    decDegFromMatch { exMatchPlain59 with g6 := some 's' } =
      decDegFromMatch { exMatchPlain59 with g6 := none } :=
  decDegFromMatch_lowercase_ignored exMatchPlain59 's' (Or.inr (Or.inl rfl))

/-- C2: for a grammar match whose magnitudes parse to `d`, `mi`, `se`
(minutes and seconds defaulting to `0` when the capture is absent), the
extractor succeeds exactly when `d ∈ [0, 180]`, `mi ∈ [0, 60]` and
`se ∈ [0, 60]`; outside a window it fails with the corresponding error kind,
the windows being checked in the order degrees, minutes, seconds, on the
unsigned magnitudes (the sign is applied only in the success value). -/
theorem decDegFromMatch_range_validation (m : MatchRes) (d mi se : ℚ)
    (hd : numberOfCapture m.g3 = some d)
    (hm : captureOrZero m.g4 = some mi)
    (hs : captureOrZero m.g5 = some se) :
    ((∃ q, decDegFromMatch m = .ok q) ↔
      (0 ≤ d ∧ d ≤ 180) ∧ (0 ≤ mi ∧ mi ≤ 60) ∧ (0 ≤ se ∧ se ≤ 60)) ∧
    (decDegFromMatch m = .error .degreesOutOfRange ↔ ¬(0 ≤ d ∧ d ≤ 180)) ∧
    (decDegFromMatch m = .error .minutesOutOfRange ↔
      (0 ≤ d ∧ d ≤ 180) ∧ ¬(0 ≤ mi ∧ mi ≤ 60)) ∧
    (decDegFromMatch m = .error .secondsOutOfRange ↔
      (0 ≤ d ∧ d ≤ 180) ∧ (0 ≤ mi ∧ mi ≤ 60) ∧ ¬(0 ≤ se ∧ se ≤ 60)) := by
  simp only [decDegFromMatch, hd, hm, hs, inRangeOpt, Bool.not_eq_true', Bool.and_eq_true,
    decide_eq_true_eq, Option.getD_some]
  split_ifs with h1 h2 h3 <;>
    simp_all [Bool.and_eq_false_iff, decide_eq_false_iff_not, not_and_or]

theorem decDegFromMatch_range_validation_witness :
    decDegFromMatch exMatchDeg200 = .error .degreesOutOfRange :=
  ((decDegFromMatch_range_validation exMatchDeg200 200 0 0
      (by decide) (by decide) (by decide)).2.1).mpr (by norm_num)

/-- C3: for a grammar match that passes range validation the extractor
returns `sign × (degrees + minutes/60 + seconds/3600)` where the sign is
resolved by priority — explicit leading minus first, then the leading
hemisphere letter's `SIGN_INDEX` entry, then the trailing one, defaulting to
positive; in particular a leading minus forces a negative result even when
hemisphere letters are present. -/
theorem decDegFromMatch_sign_and_value (m : MatchRes) (d mi se : ℚ)
    (hd : numberOfCapture m.g3 = some d)
    (hm : captureOrZero m.g4 = some mi)
    (hs : captureOrZero m.g5 = some se)
    (h1 : 0 ≤ d) (h2 : d ≤ 180) (h3 : 0 ≤ mi) (h4 : mi ≤ 60)
    (h5 : 0 ≤ se) (h6 : se ≤ 60) :
    decDegFromMatch m = .ok ((prioritySign m : ℚ) * (d + mi / 60 + se / 3600)) ∧
    (m.g2 = true → decDegFromMatch m = .ok (-(d + mi / 60 + se / 3600))) := by
  have hval : decDegFromMatch m =
      .ok ((((((if m.g2 then some (-1 : ℤ) else none).orElse
          (fun _ => m.g1.bind signIndex)).orElse
          (fun _ => m.g6.bind signIndex)).getD 1 : ℤ) : ℚ) * (d + mi / 60 + se / 3600)) := by
    simp only [decDegFromMatch, hd, hm, hs, inRangeOpt, Option.getD_some]
    rw [if_neg, if_neg, if_neg] <;>
      simp [h1, h2, h3, h4, h5, h6]
  have hsign : (((if m.g2 then some (-1 : ℤ) else none).orElse
      (fun _ => m.g1.bind signIndex)).orElse
      (fun _ => m.g6.bind signIndex)).getD 1 = prioritySign m := by
    unfold prioritySign
    cases hg2 : m.g2 <;>
      rcases hg1 : m.g1.bind signIndex with _ | s1 <;>
        rcases hg6 : m.g6.bind signIndex with _ | s6 <;>
          simp [Option.orElse]
  constructor
  · rw [hval, hsign]
  · intro hg2
    rw [hval]
    simp only [hg2, if_true, Option.orElse, Option.getD]
    norm_num

theorem decDegFromMatch_sign_and_value_witness :
    decDegFromMatch exMatchMinusN10 = .ok (-((10 : ℚ) + 0 / 60 + 0 / 3600)) :=
  (decDegFromMatch_sign_and_value exMatchMinusN10 10 0 0
      (by decide) (by decide) (by decide)
      (by norm_num) (by norm_num) (by norm_num) (by norm_num) (by norm_num) (by norm_num)).2 rfl

/-- C10: in `toDMS` the hemisphere letter for each axis is chosen by a strict
greater-than-zero comparison — `N` for the latitude axis exactly when
`0 < lat` (else `S`), `E` for the longitude axis exactly when `0 < lon`
(else `W`) — and an axis value of exactly `0` is rendered with `S`
respectively `W`, as the default-format output at `[0, 0]` shows. -/
theorem toDMS_hemisphere_strict (lon lat : ℚ) (fmt : Option String)
    (opts : Option OptFormatOptions) :
    toDMS [lon, lat] fmt opts =
      .ok (formatFor (fmt.getD "DD MM ss X") (mergeOptions opts) (computeFor lat)
             (if 0 < lat then "N" else "S") ++
           (mergeOptions opts).latLonSeparator ++
           formatFor (fmt.getD "DD MM ss X") (mergeOptions opts) (computeFor lon)
             (if 0 < lon then "E" else "W")) ∧
    toDMS [0, 0] none none = .ok "0° 0′ 0.00000″ S 0° 0′ 0.00000″ W" := by
  constructor
  · by_cases hlat : 0 < lat <;> by_cases hlon : 0 < lon <;>
      simp [toDMS, computeCoordinateConfig, hlat, hlon]
  · decide

/-- C1: whenever `fromDMS` succeeds, its value is the pair
`[longitude, latitude]` where the latitude comes from the first grammar match
on the trimmed input and the longitude from a second match on the remainder,
the remainder starting at `matchedLength - 1` when the first match captured a
leading hemisphere letter and at the full matched length otherwise, and being
trimmed; and `fromDMS` fails with `ParseError` whenever the first or the
second grammar match fails. -/
theorem fromDMS_parse_structure (value : List Char) :
    (∀ p : ℚ × ℚ, fromDMSL value = .ok p →
      ∃ m1 m2, firstMatch (trimL value) = some m1 ∧
        firstMatch (trimL ((trimL value).drop
          (if m1.g1.isSome then m1.len - 1 else m1.len))) = some m2 ∧
        decDegFromMatch m2 = .ok p.1 ∧ decDegFromMatch m1 = .ok p.2) ∧
    (firstMatch (trimL value) = none → fromDMSL value = .error .parseError) ∧
    (∀ m1, firstMatch (trimL value) = some m1 →
      firstMatch (trimL ((trimL value).drop
        (if m1.g1.isSome then m1.len - 1 else m1.len))) = none →
      fromDMSL value = .error .parseError) := by
  refine ⟨?_, ?_, ?_⟩
  · intro p hp
    rw [fromDMSL] at hp
    rcases h1 : firstMatch (trimL value) with _ | m1
    · rw [h1] at hp
      exact absurd hp (by simp)
    · rw [h1] at hp
      dsimp only at hp
      rcases h2 : firstMatch (trimL ((trimL value).drop
          (if m1.g1.isSome then m1.len - 1 else m1.len))) with _ | m2
      · rw [h2] at hp
        exact absurd hp (by simp)
      · rw [h2] at hp
        dsimp only at hp
        refine ⟨m1, m2, rfl, h2, ?_⟩
        rcases hlon : decDegFromMatch m2 with e | lo <;> rw [hlon] at hp
        · exact absurd hp (by simp [Bind.bind, Except.bind])
        · rcases hlat : decDegFromMatch m1 with e | la <;> rw [hlat] at hp
          · exact absurd hp (by simp [Bind.bind, Except.bind, Functor.map, Except.map])
          · simp only [Bind.bind, Except.bind, Functor.map, Except.map, pure, Except.pure,
              Except.ok.injEq] at hp
            rw [← hp]
            exact ⟨rfl, rfl⟩
  · intro h1
    rw [fromDMSL, h1]
  · intro m1 h1 h2
    rw [fromDMSL, h1]
    dsimp only
    rw [h2]

theorem fromDMS_parse_structure_witness :
    ∃ m1 m2, firstMatch (trimL ("12 34".data)) = some m1 ∧
      firstMatch (trimL ((trimL ("12 34".data)).drop
        (if m1.g1.isSome then m1.len - 1 else m1.len))) = some m2 ∧
      decDegFromMatch m2 = .ok ((34 : ℚ), (12 : ℚ)).1 ∧
      decDegFromMatch m1 = .ok ((34 : ℚ), (12 : ℚ)).2 :=
  (fromDMS_parse_structure ("12 34".data)).1 (34, 12) (by decide)

/-- C4 amended: `fromDMM` fails with `ParseError` iff the trimmed input
contains no comma, or splitting on commas does not yield exactly two parts,
or the computed value of either half is not a number (which happens when a
degree/minute token parses as a non-number, and also when infinite degrees
and minutes of opposite sign cancel to NaN); when the comma structure is
right and both half values are numbers, it fails with the pair-level
`RangeError` iff the longitude value is outside `[-180, 180]` or the
latitude value is outside `[-90, 90]`. -/
theorem fromDMM_failure_conditions (value : List Char) :
    (fromDMML value = .error .parseError ↔
      ((trimL value).contains ',' = false ∨
       (splitOnChar ',' (trimL value)).length ≠ 2 ∨
       ∃ p0 p1, splitOnChar ',' (trimL value) = [p0, p1] ∧
         (isNumberOpt (dmmHalfValue p1) = false ∨ isNumberOpt (dmmHalfValue p0) = false))) ∧
    (fromDMML value = .error .rangeError ↔
      ∃ p0 p1, splitOnChar ',' (trimL value) = [p0, p1] ∧
        (trimL value).contains ',' = true ∧
        isNumberOpt (dmmHalfValue p1) = true ∧ isNumberOpt (dmmHalfValue p0) = true ∧
        (inRangeJsOpt (dmmHalfValue p1) (-180) 180 = false ∨
         inRangeJsOpt (dmmHalfValue p0) (-90) 90 = false)) := by
  rw [fromDMML]
  cases hc : (trimL value).contains ','
  · simp [hc]
  · rcases hs : splitOnChar ',' (trimL value) with _ | ⟨p0, _ | ⟨p1, _ | ⟨p2, rest⟩⟩⟩
    · simp [hs]
    · simp [hs]
    · cases hn1 : isNumberOpt (dmmHalfValue p1) <;> cases hn0 : isNumberOpt (dmmHalfValue p0)
      · simp [hs, hn0, hn1]
        exact ⟨p0, p1, ⟨rfl, rfl⟩, Or.inl hn1⟩
      · simp [hs, hn0, hn1]
        exact ⟨p0, p1, ⟨rfl, rfl⟩, Or.inl hn1⟩
      · simp [hs, hn0, hn1]
        exact ⟨p0, p1, ⟨rfl, rfl⟩, Or.inr hn0⟩
      · cases hr1 : inRangeJsOpt (dmmHalfValue p1) (-180) 180 <;>
          cases hr0 : inRangeJsOpt (dmmHalfValue p0) (-90) 90
        · simp [hs, hn0, hn1, hr0, hr1]
          exact ⟨p0, p1, ⟨rfl, rfl⟩, hn1, hn0, Or.inl hr1⟩
        · simp [hs, hn0, hn1, hr0, hr1]
          exact ⟨p0, p1, ⟨rfl, rfl⟩, hn1, hn0, Or.inl hr1⟩
        · simp [hs, hn0, hn1, hr0, hr1]
          exact ⟨p0, p1, ⟨rfl, rfl⟩, hn1, hn0, Or.inr hr0⟩
        · simp [hs, hn0, hn1, hr0, hr1]
    · simp [hs]

/-- C5 amended: for every input on which `fromDMM` succeeds, the trimmed
input splits on commas into exactly two halves whose values give the latitude
(first half) and longitude (second half) of the result; each half is
evaluated by: trim, sign `-1` exactly when the trimmed half starts with a
literal minus, split on the *space character* (U+0020, not general
whitespace), first token — with its first minus removed when the sign is
`-1` — parsed by `parseFloat` as the degree magnitude, second token (when
present) parsed as decimal minutes and otherwise `0`, and value
`sign × (degrees + minutes / 60)` when both parses are numbers. -/
theorem fromDMM_half_evaluation (value : List Char) (pr : JsNum × JsNum)
    (h : fromDMML value = .ok pr) :
    ∃ p0 p1,
      splitOnChar ',' (trimL value) = [p0, p1] ∧
      dmmHalfValue p0 = some pr.2 ∧ dmmHalfValue p1 = some pr.1 ∧
      ∀ half : List Char,
        dmmHalfValue half =
          (let t := trimL half
           let orientation : ℤ := if t.head? = some '-' then -1 else 1
           let parts := splitOnChar ' ' t
           let decimalGrad :=
             match parts with
             | p :: _ =>
               if orientation = -1 then jsParseFloat (removeFirst '-' p) else jsParseFloat p
             | [] => JsNum.nan
           let decimalMinutes :=
             match parts with
             | _ :: p :: _ => jsParseFloat p
             | _ => JsNum.val 0
           if decimalGrad.isNumber && decimalMinutes.isNumber then
             some (JsNum.mulSign orientation (decimalGrad.add (decimalMinutes.divPos 60)))
           else none) := by
  rw [fromDMML] at h
  cases hc : (trimL value).contains ',' <;> rw [hc] at h
  · simp at h
  · rcases hs : splitOnChar ',' (trimL value) with _ | ⟨p0, _ | ⟨p1, _ | ⟨p2, rest⟩⟩⟩ <;>
      rw [hs] at h
    · simp at h
    · simp at h
    · dsimp only at h
      refine ⟨p0, p1, rfl, ?_⟩
      rcases h0 : dmmHalfValue p0 with _ | x0 <;> rw [h0] at h
      · simp [isNumberOpt] at h
      · rcases h1 : dmmHalfValue p1 with _ | x1 <;> rw [h1] at h
        · simp [isNumberOpt] at h
        · split_ifs at h with hA hB hC
          simp only [Option.getD_some, Except.ok.injEq] at h
          rw [← h]
          exact ⟨rfl, rfl, fun half => rfl⟩
    · simp at h

theorem fromDMM_half_evaluation_witness :
    ∃ p0 p1,
      splitOnChar ',' (trimL ("41 24.2028, -2 10.4418".data)) = [p0, p1] ∧
      dmmHalfValue p0 =
        some (JsNum.val (-((2 : ℚ) + 10.4418 / 60)), JsNum.val ((41 : ℚ) + 24.2028 / 60)).2 ∧
      dmmHalfValue p1 =
        some (JsNum.val (-((2 : ℚ) + 10.4418 / 60)), JsNum.val ((41 : ℚ) + 24.2028 / 60)).1 ∧
      ∀ half : List Char,
        dmmHalfValue half =
          (let t := trimL half
           let orientation : ℤ := if t.head? = some '-' then -1 else 1
           let parts := splitOnChar ' ' t
           let decimalGrad :=
             match parts with
             | p :: _ =>
               if orientation = -1 then jsParseFloat (removeFirst '-' p) else jsParseFloat p
             | [] => JsNum.nan
           let decimalMinutes :=
             match parts with
             | _ :: p :: _ => jsParseFloat p
             | _ => JsNum.val 0
           if decimalGrad.isNumber && decimalMinutes.isNumber then
             some (JsNum.mulSign orientation (decimalGrad.add (decimalMinutes.divPos 60)))
           else none) :=
  fromDMM_half_evaluation ("41 24.2028, -2 10.4418".data)
    (JsNum.val (-((2 : ℚ) + 10.4418 / 60)), JsNum.val ((41 : ℚ) + 24.2028 / 60)) (by decide)
